import Mathlib

/-!
Verification of the conversation-routing core of the aimhi-chatbot
repository: the forward-only dialogue FSM (`core/fsm.py`), the message
router (`core/router.py`), the risk detector (`nlp/risk_detector.py`)
and the tiered intent classifier (`nlp/intent_roberta_zeroshot.py`),
shallowly embedded in Lean.

External collaborators (the spaCy pipeline, the ONNX entailment model,
the response-template selector, persistence) are modelled as function
parameters or abstract reply descriptors: the embedding keeps the
decision logic of the source and abstracts only text generation and
model inference.
-/

set_option maxRecDepth 8000

namespace AimhiChatbot

/-! ## Python string primitives

List-based versions of the Python string methods the source uses
(`str.lower`, `str.strip`, `str.split`, the `in` substring test), chosen
over the positional `String` library functions so that every definition
evaluates by kernel reduction. -/

/-- Python `str.lower()` (the source's vocabulary is ASCII). -/
def pyLower (s : String) : String :=
  String.mk (s.toList.map Char.toLower)

/-- Python `str.strip()`: drop leading and trailing whitespace. -/
def pyStrip (s : String) : String :=
  String.mk (((s.toList.dropWhile Char.isWhitespace).reverse.dropWhile
    Char.isWhitespace).reverse)

/-- Helper for `pySplit`: accumulate the current word (reversed) while
scanning. -/
def pySplitAux : List Char → List Char → List String
  | [], acc => if acc.isEmpty then [] else [String.mk acc.reverse]
  | c :: cs, acc =>
    if c.isWhitespace then
      if acc.isEmpty then pySplitAux cs []
      else String.mk acc.reverse :: pySplitAux cs []
    else pySplitAux cs (c :: acc)

/-- Python `str.split()` with no argument: split on whitespace runs,
dropping empty fields. -/
def pySplit (s : String) : List String :=
  pySplitAux s.toList []

/-! ## `core/fsm.py` — the dialogue state machine

`ChatBotFSM.states` is the fixed ordered list of steps; the `transitions`
`Machine` is configured with `auto_transitions=False` and
`ignore_invalid_triggers=True`, so firing a trigger with no edge from the
current state is a silent no-op. -/

/-- The seven FSM states of `ChatBotFSM.states`, in source order. -/
inductive Step where
  | welcome
  | support_people
  | strengths
  | worries
  | goals
  | summary
  | llm_conversation
deriving DecidableEq, Repr, Fintype

/-- Position of a step in the fixed `ChatBotFSM.states` ordering. -/
def stepIdx : Step → Nat
  | .welcome => 0
  | .support_people => 1
  | .strengths => 2
  | .worries => 3
  | .goals => 4
  | .summary => 5
  | .llm_conversation => 6

/-- The state name string, as the Python `self.state` attribute holds it. -/
def stepName : Step → String
  | .welcome => "welcome"
  | .support_people => "support_people"
  | .strengths => "strengths"
  | .worries => "worries"
  | .goals => "goals"
  | .summary => "summary"
  | .llm_conversation => "llm_conversation"

/-- The `next_step` trigger: the five `add_transition` edges with
`trigger='next_step'`; every other source state is a no-op because the
machine is built with `ignore_invalid_triggers=True`. -/
def next_step : Step → Step
  | .welcome => .support_people
  | .support_people => .strengths
  | .strengths => .worries
  | .worries => .goals
  | .goals => .summary
  | .summary => .summary
  | .llm_conversation => .llm_conversation

/-- The `start_llm_chat` trigger: the single edge `summary →
llm_conversation`; a no-op from any other state. -/
def start_llm_chat : Step → Step
  | .summary => .llm_conversation
  | s => s

/-- A trigger of the `transitions` machine: the two triggers registered in
`ChatBotFSM.__init__`. -/
inductive Trigger where
  | nextStep
  | startLlmChat
deriving DecidableEq, Repr, Fintype

/-- Fire one trigger on a state. -/
def applyTrigger : Trigger → Step → Step
  | .nextStep, s => next_step s
  | .startLlmChat, s => start_llm_chat s

/-- The four steps that are keys of the `responses` and `attempts`
dictionaries initialized in `ChatBotFSM.__init__` (the Python guard
`self.state in self.attempts`). -/
def tracked (s : Step) : Bool :=
  s = Step.support_people ∨ s = Step.strengths ∨ s = Step.worries ∨ s = Step.goals

/-- The `ChatBotFSM` instance state: session id, current machine state, and
the `responses` / `attempts` dictionaries (total functions here; untracked
steps carry `none` / `0`, matching absent dictionary keys). -/
structure ChatBotFSM where
  session_id : String
  state : Step
  responses : Step → Option String
  attempts : Step → Nat

/-- `ChatBotFSM.__init__`: machine at `initial_state`, empty responses,
zero attempts. -/
def create_fsm (session_id : String) (initial_state : Step := .welcome) : ChatBotFSM :=
  { session_id := session_id
    state := initial_state
    responses := fun _ => none
    attempts := fun _ => 0 }

/-- `ChatBotFSM.save_response`: store the text under the current step when
that step is a key of the `responses` dictionary. -/
def save_response (f : ChatBotFSM) (response : String) : ChatBotFSM :=
  if tracked f.state then
    { f with responses := fun s => if s = f.state then some response else f.responses s }
  else f

/-- `ChatBotFSM.increment_attempt`: bump the current step's counter when
that step is a key of the `attempts` dictionary. -/
def increment_attempt (f : ChatBotFSM) : ChatBotFSM :=
  if tracked f.state then
    { f with attempts := fun s => if s = f.state then f.attempts s + 1 else f.attempts s }
  else f

/-- `ChatBotFSM.get_attempt_count`: `self.attempts.get(self.state, 0)`. -/
def get_attempt_count (f : ChatBotFSM) : Nat :=
  if tracked f.state then f.attempts f.state else 0

/-- `ChatBotFSM.should_advance` (imported by the router as
`should_force_advance`): force advance once the current step's counter has
reached 2. -/
def should_advance (f : ChatBotFSM) : Bool :=
  2 ≤ get_attempt_count f

/-- `ChatBotFSM.reset_attempts`: zero the current step's counter when that
step is a key of the `attempts` dictionary. -/
def reset_attempts (f : ChatBotFSM) : ChatBotFSM :=
  if tracked f.state then
    { f with attempts := fun s => if s = f.state then 0 else f.attempts s }
  else f

/-- `ChatBotFSM.can_advance`: false only in the terminal
`llm_conversation` state. -/
def can_advance (f : ChatBotFSM) : Bool :=
  if f.state = Step.llm_conversation then false else true

/-- The router's `advance_state`: fire the `next_step` trigger on the
session's machine. -/
def advance_state (f : ChatBotFSM) : ChatBotFSM :=
  { f with state := next_step f.state }

/-! ## `core/router.py` — message routing

Reply text is produced by the external `VariedResponseSelector`
collaborator; a reply is therefore embedded as a descriptor of the
selector call (step, category, optional sentiment, optional appended
prompt or literal text) rather than as rendered text.  Persistence
(`save_message`, `save_analytics_event`, `update_session_state`) is a
`pass`-bodied stub in the source and is not modelled.  The NLP
collaborators (`normalize_text`, `contains_risk`, `classify_intent`,
`analyze_sentiment`) are module imports in the source and function
parameters here. -/

/-- A reply of the router, as a descriptor of how the source builds it. -/
inductive RouterReply where
  /-- The fixed `get_crisis_resources()` message. -/
  | crisis
  /-- A literal string returned on the `llm_conversation` branch. -/
  | llmReply (text : String)
  /-- `response_selector.get_response(step, category, session_id[, sentiment])`. -/
  | response (step category : String) (sentiment : Option String)
  /-- `f"{get_response(step, category, ...)} {get_prompt(promptStep, ...)}"`. -/
  | responseWithPrompt (step category : String) (sentiment : Option String) (promptStep : String)
  /-- `f"{get_response(step, category, ...)} {text}"` with a literal tail. -/
  | responseWithText (step category : String) (sentiment : Option String) (text : String)
  /-- `response_selector.get_response('fallback', category, session_id)`. -/
  | fallbackResponse (category : String)
deriving DecidableEq, Repr

/-- The result dictionary of `classify_intent`:
`{'label': ..., 'confidence': ..., 'method': ...}`.  Confidence is a
Python float in [0,1]; modelled as a rational. -/
structure IntentResult where
  label : String
  confidence : ℚ
  method : String
deriving DecidableEq, Repr

/-- `_handle_welcome_state`: any message longer than 3 characters (after
`strip`) advances out of `welcome`. -/
def handle_welcome_state (f : ChatBotFSM) (message : String)
    (sentimentLabel : String) : RouterReply × ChatBotFSM :=
  if 3 < (pyStrip message).length then
    if can_advance f then
      (.response "welcome" "ready_response" (some sentimentLabel), advance_state f)
    else
      (.response "welcome" "greeting" (some sentimentLabel), f)
  else
    (.response "welcome" "greeting" (some sentimentLabel), f)

/-- `_handle_support_people_state`: progressive fallback at the
`support_people` step. -/
def handle_support_people_state (f : ChatBotFSM) (message : String)
    (intentLabel : String) (sentimentLabel : String) : RouterReply × ChatBotFSM :=
  if intentLabel ≠ "unclear" then
    let f1 := reset_attempts (save_response f message)
    if can_advance f1 then
      (.responseWithPrompt "support_people" "acknowledgment" (some sentimentLabel) "strengths",
        advance_state f1)
    else
      (.response "support_people" "acknowledgment" (some sentimentLabel), f1)
  else
    let f1 := increment_attempt f
    if should_advance f1 then
      let f2 := reset_attempts (save_response f1 ("Unclear: " ++ message))
      if can_advance f2 then
        (.responseWithPrompt "support_people" "transition_unclear" none "strengths",
          advance_state f2)
      else
        (.response "support_people" "transition_unclear" none, f2)
    else
      (.response "support_people" "clarify" none, f1)

/-- `_handle_strengths_state`: same shape as `support_people`, with the
`transition_advance` category and the `worries` prompt. -/
def handle_strengths_state (f : ChatBotFSM) (message : String)
    (intentLabel : String) (sentimentLabel : String) : RouterReply × ChatBotFSM :=
  if intentLabel ≠ "unclear" then
    let f1 := reset_attempts (save_response f message)
    if can_advance f1 then
      (.responseWithPrompt "strengths" "acknowledgment" (some sentimentLabel) "worries",
        advance_state f1)
    else
      (.response "strengths" "acknowledgment" (some sentimentLabel), f1)
  else
    let f1 := increment_attempt f
    if should_advance f1 then
      let f2 := reset_attempts (save_response f1 ("Unclear: " ++ message))
      if can_advance f2 then
        (.responseWithPrompt "strengths" "transition_advance" none "worries", advance_state f2)
      else
        (.response "strengths" "transition_advance" none, f2)
    else
      (.response "strengths" "clarify" none, f1)

/-- `_handle_worries_state`. -/
def handle_worries_state (f : ChatBotFSM) (message : String)
    (intentLabel : String) (sentimentLabel : String) : RouterReply × ChatBotFSM :=
  if intentLabel ≠ "unclear" then
    let f1 := reset_attempts (save_response f message)
    if can_advance f1 then
      (.responseWithPrompt "worries" "acknowledgment" (some sentimentLabel) "goals",
        advance_state f1)
    else
      (.response "worries" "acknowledgment" (some sentimentLabel), f1)
  else
    let f1 := increment_attempt f
    if should_advance f1 then
      let f2 := reset_attempts (save_response f1 ("Unclear: " ++ message))
      if can_advance f2 then
        (.responseWithPrompt "worries" "transition_advance" none "goals", advance_state f2)
      else
        (.response "worries" "transition_advance" none, f2)
    else
      (.response "worries" "clarify" none, f1)

/-- `_handle_goals_state`: fires the FSM's `next_step` trigger (whose edge
from `goals` leads to `summary`) and appends a literal transition
sentence. -/
def handle_goals_state (f : ChatBotFSM) (message : String)
    (intentLabel : String) (sentimentLabel : String) : RouterReply × ChatBotFSM :=
  if intentLabel ≠ "unclear" then
    let f1 := reset_attempts (save_response f message)
    if can_advance f1 then
      (.responseWithText "goals" "acknowledgment" (some sentimentLabel)
          "Great! Now we can have an open yarn about anything on your mind.",
        advance_state f1)
    else
      (.response "goals" "acknowledgment" (some sentimentLabel), f1)
  else
    let f1 := increment_attempt f
    if should_advance f1 then
      let f2 := reset_attempts (save_response f1 ("Unclear: " ++ message))
      if can_advance f2 then
        (.responseWithText "goals" "transition_advance" none
            "No worries! Let's move on and have a yarn about anything that's on your mind.",
          advance_state f2)
      else
        (.response "goals" "transition_advance" none, f2)
    else
      (.response "goals" "clarify" none, f1)

/-- `_handle_fallback_state`: any state with no entry in the
`state_handlers` dictionary (`summary` among them). -/
def handle_fallback_state (f : ChatBotFSM) : RouterReply × ChatBotFSM :=
  (.fallbackResponse "general", f)

/-- `_handle_fsm_conversation`: classify intent (with the current step as
context) and sentiment, then dispatch on the current state through the
`state_handlers` dictionary. -/
def handle_fsm_conversation
    (intentClassifier : String → String → IntentResult)
    (sentimentClassifier : String → String)
    (f : ChatBotFSM) (message : String) : RouterReply × ChatBotFSM :=
  let intentRes := intentClassifier message (stepName f.state)
  let sentimentLabel := sentimentClassifier message
  match f.state with
  | .welcome => handle_welcome_state f message sentimentLabel
  | .support_people => handle_support_people_state f message intentRes.label sentimentLabel
  | .strengths => handle_strengths_state f message intentRes.label sentimentLabel
  | .worries => handle_worries_state f message intentRes.label sentimentLabel
  | .goals => handle_goals_state f message intentRes.label sentimentLabel
  | _ => handle_fallback_state f

/-- `route_message`: normalize, run the universal risk check first (and
stop on a positive), otherwise branch on the terminal `llm_conversation`
state or dispatch to the FSM conversation handlers.  The session's FSM is
passed in and returned explicitly (the source mutates the `_fsm_cache`
entry in place). -/
def route_message
    (normalize : String → String)
    (riskCheck : String → Bool)
    (intentClassifier : String → String → IntentResult)
    (sentimentClassifier : String → String)
    (llmEnabled : Bool)
    (f : ChatBotFSM) (message : String) : RouterReply × ChatBotFSM :=
  let normalized := normalize message
  if riskCheck normalized then
    (.crisis, f)
  else if f.state = Step.llm_conversation then
    if llmEnabled then
      (.llmReply "LLM handoff not yet implemented with new architecture", f)
    else
      (.llmReply "I'm not able to continue our conversation right now. Please try again later.", f)
  else
    handle_fsm_conversation intentClassifier sentimentClassifier f message

/-! ## `nlp/intent_roberta_zeroshot.py` — tiered intent classification

The ONNX entailment model behind `_compute_entailment_score_onnx` is
external; it enters the embedding as a score oracle
`score : String → String → ℚ` from (processed text, hypothesis) to the
entailment probability.  Model availability (`is_available`) is a
boolean parameter.  Everything downstream of the scores — template
table, context boosting, argmax, thresholding, the tier loop of
`classify_intent` — is embedded from the source. -/

/-- `RoBERTaZeroShotClassifier.INTENT_TEMPLATES`, in source order. -/
def INTENT_TEMPLATES : List (String × List String) :=
  [("greeting", ["This is a greeting or hello", "The user is saying hello"]),
   ("question", ["This is a question", "The user is asking something"]),
   ("affirmative", ["The user agrees or says yes", "This is a positive response"]),
   ("negative", ["The user disagrees or says no", "This is a negative response"]),
   ("support_people", ["The user is talking about people who support them",
      "This mentions family or friends who help"]),
   ("strengths", ["The user is talking about their strengths or abilities",
      "This mentions things they are good at"]),
   ("worries", ["The user is talking about worries or concerns",
      "This mentions stress or anxiety"]),
   ("goals", ["The user is talking about goals or aspirations",
      "This mentions future plans or dreams"]),
   ("no_support", ["The user says they have no support",
      "The user mentions having nobody to help them"]),
   ("no_strengths", ["The user says they have no strengths",
      "The user mentions not being good at anything"]),
   ("no_worries", ["The user says they have no worries",
      "The user mentions not being concerned about anything"]),
   ("no_goals", ["The user says they have no goals",
      "The user mentions not having plans or dreams"]),
   ("unclear", ["This message is unclear or confusing", "The meaning is ambiguous"])]

/-- The word substitutions of `_preprocess_text`: the merged
`{**contractions, **cultural_terms}` dictionary, in insertion order. -/
def preprocessReplacements : List (String × String) :=
  [("i'm", "i am"), ("don't", "do not"), ("can't", "cannot"), ("it's", "it is"),
   ("mob", "family"), ("deadly", "good"), ("yarning", "talking")]

/-- `_preprocess_text`: lowercase, strip, collapse whitespace runs to
single spaces (`re.sub(r'\s+', ' ', text)`), then apply the word
substitutions (the source substitutes at `\b` word boundaries; after
whitespace collapsing this is modelled as replacement of space-delimited
tokens), and strip again. -/
def preprocess_text (text : String) : String :=
  if text = "" then ""
  else
    let tokens := (pySplit (pyStrip (pyLower text))).map (fun tok =>
      match preprocessReplacements.find? (fun p => p.1 = tok) with
      | some p => p.2
      | none => tok)
    pyStrip (String.intercalate " " tokens)

/-- `float(np.max(scores)) if scores else 0.0`. -/
def maxOrZero : List ℚ → ℚ
  | [] => 0
  | x :: xs => xs.foldl max x

/-- The `intent_scores` dictionary built in `classify`: for every template
intent except `unclear`, the maximum entailment score over its
hypotheses, in template order. -/
def intentScores (score : String → String → ℚ) (processed : String) :
    List (String × ℚ) :=
  (INTENT_TEMPLATES.filter (fun p => p.1 ≠ "unclear")).map
    (fun p => (p.1, maxOrZero (p.2.map (score processed))))

/-- The `boost_factors` table of `_apply_context_boosting`. -/
def boost_factors : List (String × List (String × ℚ)) :=
  [("support_people", [("support_people", 3/2), ("no_support", 13/10)]),
   ("strengths", [("strengths", 3/2), ("no_strengths", 13/10)]),
   ("worries", [("worries", 3/2), ("no_worries", 13/10), ("negative", 6/5)]),
   ("goals", [("goals", 3/2), ("no_goals", 13/10), ("affirmative", 11/10)]),
   ("welcome", [("greeting", 7/5), ("question", 6/5)])]

/-- Apply one boost entry: `boosted_scores[intent] =
min(boosted_scores[intent] * factor, 1.0)` when the intent is a key. -/
def applyBoost (scores : List (String × ℚ)) (intent : String) (factor : ℚ) :
    List (String × ℚ) :=
  scores.map (fun p => if p.1 = intent then (p.1, min (p.2 * factor) 1) else p)

/-- `_apply_context_boosting`: no-op without a `current_step` hint or for a
step that is not a key of `boost_factors`. -/
def apply_context_boosting (scores : List (String × ℚ))
    (current_step : Option String) : List (String × ℚ) :=
  match current_step with
  | none => scores
  | some cs =>
    match boost_factors.find? (fun p => p.1 = cs) with
    | none => scores
    | some (_, factors) =>
      factors.foldl (fun acc p => applyBoost acc p.1 p.2) scores

/-- `max(boosted_scores.items(), key=lambda item: item[1])`: the first
entry with the maximal value, in insertion order (Python's `max` replaces
the running best only on a strictly greater value). -/
def maxByValue : List (String × ℚ) → Option (String × ℚ)
  | [] => none
  | x :: xs => some (xs.foldl (fun best p => if best.2 < p.2 then p else best) x)

/-- `RoBERTaZeroShotClassifier.classify`: guard on availability and
empty/whitespace text, preprocess, score every non-`unclear` template
intent, boost by the current step, take the best, and degrade to
`unclear` only when the best confidence is below the threshold
(default 0.3). -/
def classify (available : Bool) (score : String → String → ℚ)
    (text : String) (current_step : Option String) (threshold : ℚ := 3/10) :
    String × ℚ :=
  if ¬ available ∨ pyStrip text = "" then ("unclear", 0)
  else
    let processed := preprocess_text text
    if processed = "" then ("unclear", 0)
    else
      let scores := intentScores score processed
      let boosted := apply_context_boosting scores current_step
      match maxByValue boosted with
      | none => ("unclear", 0)
      | some (best, conf) =>
        if conf < threshold then ("unclear", conf) else (best, conf)

/-- `_try_roberta_classify`: raises (`Except.error`) when the model is not
available, otherwise returns `classify`'s label and confidence. -/
def try_roberta_classify (available : Bool) (score : String → String → ℚ)
    (text : String) (current_step : Option String) : Except String (String × ℚ) :=
  if ¬ available then .error "RoBERTa not available"
  else .ok (classify available score text current_step)

/-- `_try_rule_classify` executes `from fallbacks.rule_based_intent import
classify_intent_rule_based`; the module `fallbacks/rule_based_intent.py`
does not exist in the source tree (`fallbacks/` holds only
`keyword_sentiment.py` and `risk_fallback.py`), so the import raises
`ImportError` on every call. -/
def try_rule_classify (_text : String) (_current_step : Option String) :
    Except String (String × ℚ) :=
  .error "ImportError: No module named fallbacks.rule_based_intent"

/-- The `intent_mapping` applied in the `classify_intent` tier loop:
`{'affirmative': 'affirmation', 'negative': 'negation'}`. -/
def intentMapping (label : String) : String :=
  if label = "affirmative" then "affirmation"
  else if label = "negative" then "negation"
  else label

/-- `classify_intent`: reject empty/whitespace input with the
`empty_input` result, then try the tiers `roberta_zero_shot` and
`rule_based` in order, returning the first that does not raise (with the
intent mapping applied); if every tier raised, return the safe default
with method `all_failed`. -/
def classify_intent (available : Bool) (score : String → String → ℚ)
    (text : String) (current_step : Option String) : IntentResult :=
  if pyStrip text = "" then ⟨"unclear", 0, "empty_input"⟩
  else
    match try_roberta_classify available score text current_step with
    | .ok (label, conf) => ⟨intentMapping label, conf, "roberta_zero_shot"⟩
    | .error _ =>
      match try_rule_classify text current_step with
      | .ok (label, conf) => ⟨intentMapping label, conf, "rule_based"⟩
      | .error _ => ⟨"unclear", 0, "all_failed"⟩

/-! ## `nlp/risk_detector.py` — the risk escalation check

The three detection methods (`_check_exact_phrases`,
`_check_fuzzy_matches`, `_check_critical_words`) depend on the spaCy
pipeline and the rapidfuzz library; each enters the embedding as a
predicate on the lowercased text (the spaCy `doc` consumed by two of them
is itself a function of that text). -/

/-- Python's substring test `pat in text`. -/
def substrIn (pat text : String) : Bool :=
  text.toList.tails.any (fun suffix => pat.toList.isPrefixOf suffix)

/-- Modelled from the spec: the curated false-positive allow-list
`false_positives.innocent_phrases` is loaded at import time from
`config/risk_phrases.json`, a data file that is not present in the source
tree; the spec names "I want to help people" as an example entry (matched
against the lowercased text). -/
def false_positive_phrases : List String :=
  ["i want to help people"]

/-- `contains_risk`: `None`/empty guard, lowercasing, the innocent-phrase
early exit, then the three detection methods in order. -/
def contains_risk (innocent_phrases : List String)
    (check_exact_phrases check_fuzzy_matches check_critical_words : String → Bool)
    (text : String) : Bool :=
  if text = "" then false
  else
    let text_lower := pyLower text
    if innocent_phrases.any (fun phrase => substrIn phrase text_lower) then false
    else if check_exact_phrases text_lower then true
    else if check_fuzzy_matches text_lower then true
    else if check_critical_words text_lower then true
    else false

/-! ## Theorems -/

/-- C3: every trigger of the FSM either leaves the state unchanged or
moves it to the unique next step in the fixed order (never backward,
never skipping), so the step index is monotone over any sequence of
triggers for the lifetime of a session, and firing a trigger in the
terminal `llm_conversation` state is a silent no-op rather than an
error. -/
theorem fsm_forward_only_monotone :
    (∀ (t : Trigger) (s : Step),
        stepIdx (applyTrigger t s) = stepIdx s ∨
        stepIdx (applyTrigger t s) = stepIdx s + 1) ∧
    (∀ t : Trigger, applyTrigger t Step.llm_conversation = Step.llm_conversation) ∧
    (∀ (ts : List Trigger) (s : Step),
        stepIdx s ≤ stepIdx (ts.foldl (fun st t => applyTrigger t st) s)) := by
  refine ⟨by decide, by decide, ?_⟩
  intro ts
  induction ts with
  | nil => intro s; exact Nat.le_refl _
  | cons t ts ih =>
    intro s
    have hstep : stepIdx s ≤ stepIdx (applyTrigger t s) := by
      rcases (show stepIdx (applyTrigger t s) = stepIdx s ∨
          stepIdx (applyTrigger t s) = stepIdx s + 1 by revert t s; decide) with h | h
      · exact h ▸ Nat.le_refl _
      · exact h ▸ Nat.le_succ _
    exact Nat.le_trans hstep (ih (applyTrigger t s))

/-- C4 counterexample: firing the FSM's advance (`next_step`) from
`support_people` with a pending attempt count of 1 moves the state to
`strengths` but leaves `attempts[support_people]` at 1 — the advance
operation itself does not reset the counter of the step it leaves. -/
theorem advance_state_keeps_attempts :
    (advance_state
        { session_id := "s", state := Step.support_people,
          responses := fun _ => none,
          attempts := fun s => if s = Step.support_people then 1 else 0 }).state
        = Step.strengths ∧
    (advance_state
        { session_id := "s", state := Step.support_people,
          responses := fun _ => none,
          attempts := fun s => if s = Step.support_people then 1 else 0 }).attempts
        Step.support_people = 1 := by
  exact ⟨rfl, rfl⟩

/-- C4 (amended): attempt counters are natural numbers (hence
non-negative); `increment_attempt` and `reset_attempts` change no
counter of any step other than the current one and never change the
state; `reset_attempts` zeroes the current step's counter; and the
advance operation itself leaves every attempt counter unchanged — the
reset on leaving a step is performed by the router calling
`reset_attempts` immediately before advancing, not by the FSM
transition. -/
theorem attempts_isolation (f : ChatBotFSM) (s : Step) (h : s ≠ f.state) :
    (increment_attempt f).attempts s = f.attempts s ∧
    (reset_attempts f).attempts s = f.attempts s ∧
    (advance_state f).attempts = f.attempts ∧
    get_attempt_count (reset_attempts f) = 0 ∧
    (increment_attempt f).state = f.state ∧
    (reset_attempts f).state = f.state := by
  refine ⟨?_, ?_, rfl, ?_, ?_, ?_⟩
  · unfold increment_attempt
    by_cases ht : tracked f.state <;> simp [ht, h]
  · unfold reset_attempts
    by_cases ht : tracked f.state <;> simp [ht, h]
  · unfold get_attempt_count reset_attempts
    by_cases ht : tracked f.state <;> simp [ht]
  · unfold increment_attempt
    by_cases ht : tracked f.state <;> simp [ht]
  · unfold reset_attempts
    by_cases ht : tracked f.state <;> simp [ht]

/-- C4 witness: the isolation facts at a concrete session (state
`support_people`, one pending attempt) and the distinct step
`strengths`. -/
theorem attempts_isolation_witness :
    (increment_attempt
        { session_id := "s", state := Step.support_people,
          responses := fun _ => none,
          attempts := fun s => if s = Step.support_people then 1 else 0 }).attempts
        Step.strengths = 0 ∧
    get_attempt_count (reset_attempts
        { session_id := "s", state := Step.support_people,
          responses := fun _ => none,
          attempts := fun s => if s = Step.support_people then 1 else 0 }) = 0 := by
  have h := attempts_isolation
    { session_id := "s", state := Step.support_people,
      responses := fun _ => none,
      attempts := fun s => if s = Step.support_people then 1 else 0 }
    Step.strengths (by decide)
  exact ⟨h.1.trans rfl, h.2.2.2.1⟩

/-- C1: when `contains_risk` is positive on the normalized message,
`route_message` returns the fixed crisis-resources reply and the
session's FSM unchanged, and the result does not depend on the intent
classifier or the sentiment classifier (they are not consulted): routing
with any two choices of either classifier gives the same result. -/
theorem risk_short_circuits_routing
    (normalize : String → String)
    (m1 m2 m3 : String → Bool)
    (ic ic' : String → String → IntentResult) (sc sc' : String → String)
    (llmEnabled : Bool) (f : ChatBotFSM) (message : String)
    (h : contains_risk false_positive_phrases m1 m2 m3 (normalize message) = true) :
    route_message normalize (contains_risk false_positive_phrases m1 m2 m3)
        ic sc llmEnabled f message = (RouterReply.crisis, f) ∧
    route_message normalize (contains_risk false_positive_phrases m1 m2 m3)
        ic sc llmEnabled f message =
      route_message normalize (contains_risk false_positive_phrases m1 m2 m3)
        ic' sc' llmEnabled f message := by
  have e : ∀ (ic0 : String → String → IntentResult) (sc0 : String → String),
      route_message normalize (contains_risk false_positive_phrases m1 m2 m3)
        ic0 sc0 llmEnabled f message = (RouterReply.crisis, f) := by
    intro ic0 sc0
    simp only [route_message, h, if_true]
  exact ⟨e ic sc, (e ic sc).trans (e ic' sc').symm⟩

/-- C1 witness: the crisis short-circuit at a concrete session in
`support_people` for a message every risk method flags. -/
theorem risk_short_circuits_routing_witness :
    route_message id
        (contains_risk false_positive_phrases
          (fun _ => true) (fun _ => true) (fun _ => true))
        (fun _ _ => ⟨"greeting", 1, "roberta_zero_shot"⟩) (fun _ => "positive")
        false (create_fsm "s" Step.support_people) "I want to hurt myself"
      = (RouterReply.crisis, create_fsm "s" Step.support_people) :=
  (risk_short_circuits_routing id
    (fun _ => true) (fun _ => true) (fun _ => true)
    (fun _ _ => ⟨"greeting", 1, "roberta_zero_shot"⟩)
    (fun _ _ => ⟨"unclear", 0, "all_failed"⟩)
    (fun _ => "positive") (fun _ => "negative")
    false (create_fsm "s" Step.support_people) "I want to hurt myself"
    (by decide)).1

/-- C9: a text containing an innocent phrase from the false-positive
allow-list is classified `no_risk` whatever the three detection methods
would say — the allow-list check short-circuits before any of exact,
fuzzy or critical-token matching is consulted. -/
theorem innocent_phrase_short_circuits
    (check_exact_phrases check_fuzzy_matches check_critical_words : String → Bool)
    (text : String)
    (h : false_positive_phrases.any (fun phrase => substrIn phrase (pyLower text)) = true) :
    contains_risk false_positive_phrases
      check_exact_phrases check_fuzzy_matches check_critical_words text = false := by
  unfold contains_risk
  by_cases he : text = ""
  · simp [he]
  · simp [he, h]

/-- C9 witness: "I want to help people who are struggling" is no-risk even
when every detection method reports a match. -/
theorem innocent_phrase_short_circuits_witness :
    contains_risk false_positive_phrases
      (fun _ => true) (fun _ => true) (fun _ => true)
      "I want to help people who are struggling" = false :=
  innocent_phrase_short_circuits (fun _ => true) (fun _ => true) (fun _ => true)
    "I want to help people who are struggling" (by decide)

/-- C8 counterexample: a whitespace-only message is not caught by
`contains_risk`'s early exit (which tests only Python falsiness of the
text, i.e. the empty string): the detection methods are consulted, as
shown by a stub exact-phrase method flipping the result to `True` on the
one-space input. The intent tier, by contrast, does return its
`empty_input` result on that input. -/
theorem whitespace_reaches_risk_methods :
    contains_risk false_positive_phrases
      (fun _ => true) (fun _ => false) (fun _ => false) " " = true ∧
    classify_intent true (fun _ _ => 1) " " none =
      ⟨"unclear", 0, "empty_input"⟩ := by
  exact ⟨by decide, by decide⟩

/-- C8 (amended): an empty or whitespace-only input makes
`classify_intent` return the `unclear`/confidence-0/`empty_input` result
without consulting any tier, and the empty string makes `contains_risk`
return `no_risk` immediately; but `contains_risk`'s early exit tests only
the empty string, so a whitespace-only input proceeds into the three
detection methods. -/
theorem empty_input_short_circuit
    (available : Bool) (score : String → String → ℚ) (current_step : Option String)
    (text : String) (htext : pyStrip text = "")
    (m1 m2 m3 : String → Bool) :
    classify_intent available score text current_step =
      ⟨"unclear", 0, "empty_input"⟩ ∧
    contains_risk false_positive_phrases m1 m2 m3 "" = false := by
  constructor
  · unfold classify_intent
    simp [htext]
  · rfl

/-- C8 witness: the short-circuits at the empty string itself. -/
theorem empty_input_short_circuit_witness :
    classify_intent true (fun _ _ => 1) "" none = ⟨"unclear", 0, "empty_input"⟩ ∧
    contains_risk false_positive_phrases
      (fun _ => true) (fun _ => true) (fun _ => true) "" = false :=
  empty_input_short_circuit true (fun _ _ => 1) none "" (by decide)
    (fun _ => true) (fun _ => true) (fun _ => true)

/-- C10: `classify_intent` never returns a `rule_based` result: the rule
tier's import of `fallbacks.rule_based_intent` always raises because the
module is absent from the source tree, so every result's method is
`empty_input`, `roberta_zero_shot` or `all_failed`, and an `all_failed`
result carries the safe default label `unclear` with confidence 0. -/
theorem classify_intent_never_rule_based
    (available : Bool) (score : String → String → ℚ)
    (text : String) (current_step : Option String) :
    ((classify_intent available score text current_step).method = "empty_input" ∨
      (classify_intent available score text current_step).method = "roberta_zero_shot" ∨
      (classify_intent available score text current_step).method = "all_failed") ∧
    (classify_intent available score text current_step).method ≠ "rule_based" ∧
    ((classify_intent available score text current_step).method = "all_failed" →
      (classify_intent available score text current_step).label = "unclear" ∧
      (classify_intent available score text current_step).confidence = 0) := by
  unfold classify_intent try_roberta_classify try_rule_classify
  by_cases he : pyStrip text = ""
  · simp [he]
  · by_cases ha : available
    · simp [he, ha]
    · simp [he, ha]

/-- C10 witness: with the zero-shot model unavailable the rule tier also
fails and the safe default is returned. -/
theorem classify_intent_never_rule_based_witness :
    (classify_intent false (fun _ _ => 1) "hi" none).label = "unclear" ∧
    (classify_intent false (fun _ _ => 1) "hi" none).confidence = 0 ∧
    (classify_intent false (fun _ _ => 1) "hi" none).method ≠ "rule_based" :=
  ⟨((classify_intent_never_rule_based false (fun _ _ => 1) "hi" none).2.2 (by decide)).1,
   ((classify_intent_never_rule_based false (fun _ _ => 1) "hi" none).2.2 (by decide)).2,
   (classify_intent_never_rule_based false (fun _ _ => 1) "hi" none).2.1⟩

/-- C2 counterexample: starting from a fresh session at `support_people`,
the first unclear message yields the clarify reply with the state
unchanged, but the *second* unclear message already force-advances the
FSM to `strengths` with the transition reply — there is no offer-choice
stage and no third message at this step (`should_advance` fires at an
attempt count of 2, reached on the second unclear message). -/
theorem second_unclear_message_advances :
    (handle_support_people_state (create_fsm "s" Step.support_people)
        "first gibberish" "unclear" "neutral").1
      = RouterReply.response "support_people" "clarify" none ∧
    (handle_support_people_state (create_fsm "s" Step.support_people)
        "first gibberish" "unclear" "neutral").2.state = Step.support_people ∧
    (handle_support_people_state
        ((handle_support_people_state (create_fsm "s" Step.support_people)
            "first gibberish" "unclear" "neutral").2)
        "second gibberish" "unclear" "neutral").2.state = Step.strengths ∧
    (handle_support_people_state
        ((handle_support_people_state (create_fsm "s" Step.support_people)
            "first gibberish" "unclear" "neutral").2)
        "second gibberish" "unclear" "neutral").1
      = RouterReply.responseWithPrompt "support_people" "transition_unclear" none
          "strengths" := by
  exact ⟨rfl, rfl, rfl, rfl⟩

/-- C2 (amended): at `support_people` with a zero attempt counter, two
consecutive unclear messages suffice: the first yields the clarify reply,
leaves the state and saved answers unchanged and raises the counter to 1;
the second yields the transition reply, saves the sentinel answer
"Unclear: <original text>", resets the counter to 0 and advances
`fsm_state` to `strengths`.  The force-advance threshold is an attempt
count of 2 and there is no intermediate offer-choice reply. -/
theorem progressive_fallback_two_messages
    (f : ChatBotFSM) (msg1 msg2 s1 s2 : String)
    (hstate : f.state = Step.support_people)
    (hzero : f.attempts Step.support_people = 0) :
    (handle_support_people_state f msg1 "unclear" s1).1
        = RouterReply.response "support_people" "clarify" none ∧
    (handle_support_people_state f msg1 "unclear" s1).2.state = Step.support_people ∧
    (handle_support_people_state f msg1 "unclear" s1).2.responses = f.responses ∧
    (handle_support_people_state f msg1 "unclear" s1).2.attempts Step.support_people = 1 ∧
    (handle_support_people_state ((handle_support_people_state f msg1 "unclear" s1).2)
        msg2 "unclear" s2).1
      = RouterReply.responseWithPrompt "support_people" "transition_unclear" none
          "strengths" ∧
    (handle_support_people_state ((handle_support_people_state f msg1 "unclear" s1).2)
        msg2 "unclear" s2).2.state = Step.strengths ∧
    (handle_support_people_state ((handle_support_people_state f msg1 "unclear" s1).2)
        msg2 "unclear" s2).2.responses Step.support_people
      = some ("Unclear: " ++ msg2) ∧
    (handle_support_people_state ((handle_support_people_state f msg1 "unclear" s1).2)
        msg2 "unclear" s2).2.attempts Step.support_people = 0 := by
  obtain ⟨sid, st, resp, att⟩ := f
  dsimp only at hstate hzero
  subst hstate
  simp [handle_support_people_state, increment_attempt, get_attempt_count,
    should_advance, reset_attempts, save_response, advance_state, can_advance,
    next_step, tracked, hzero]

/-- C2 witness: the two-message progressive fallback at a fresh session. -/
theorem progressive_fallback_two_messages_witness :
    (handle_support_people_state (create_fsm "w" Step.support_people)
        "hmm" "unclear" "neutral").1
      = RouterReply.response "support_people" "clarify" none ∧
    (handle_support_people_state ((handle_support_people_state
        (create_fsm "w" Step.support_people) "hmm" "unclear" "neutral").2)
        "dunno" "unclear" "neutral").2.responses Step.support_people
      = some "Unclear: dunno" := by
  have h := progressive_fallback_two_messages (create_fsm "w" Step.support_people)
    "hmm" "dunno" "neutral" "neutral" rfl rfl
  exact ⟨h.1, h.2.2.2.2.2.2.1⟩

/-- C6: at `support_people` with a positive attempt count, a message
classified as an explicit affirmative (label `affirmation`, which is not
`unclear`) takes the clear-intent branch immediately, whatever the
counter's value: the message is saved as the step's answer, the attempt
counter is reset to 0 and the FSM advances to `strengths` — no
force-advance threshold is waited for. -/
theorem affirmation_advances_immediately
    (f : ChatBotFSM) (message sentiment : String)
    (hstate : f.state = Step.support_people)
    (hpos : 0 < get_attempt_count f) :
    (handle_support_people_state f message "affirmation" sentiment).2.state
        = Step.strengths ∧
    (handle_support_people_state f message "affirmation" sentiment).2.responses
        Step.support_people = some message ∧
    (handle_support_people_state f message "affirmation" sentiment).2.attempts
        Step.support_people = 0 ∧
    (handle_support_people_state f message "affirmation" sentiment).1
      = RouterReply.responseWithPrompt "support_people" "acknowledgment"
          (some sentiment) "strengths" := by
  obtain ⟨sid, st, resp, att⟩ := f
  dsimp only at hstate
  subst hstate
  simp [handle_support_people_state, save_response, reset_attempts, can_advance,
    advance_state, next_step, tracked]

/-- C6 witness: the immediate advance at a session with one failed
attempt already recorded. -/
theorem affirmation_advances_immediately_witness :
    (handle_support_people_state
        (increment_attempt (create_fsm "w" Step.support_people))
        "yep lets move on" "affirmation" "positive").2.state = Step.strengths ∧
    (handle_support_people_state
        (increment_attempt (create_fsm "w" Step.support_people))
        "yep lets move on" "affirmation" "positive").2.attempts
        Step.support_people = 0 := by
  have h := affirmation_advances_immediately
    (increment_attempt (create_fsm "w" Step.support_people))
    "yep lets move on" "positive" rfl (by decide)
  exact ⟨h.1, h.2.2.1⟩

/-- With a constant score oracle, every non-`unclear` template intent
scores that constant. -/
theorem intentScores_const (c : ℚ) (t : String) :
    intentScores (fun _ _ => c) t =
      [("greeting", c), ("question", c), ("affirmative", c), ("negative", c),
       ("support_people", c), ("strengths", c), ("worries", c), ("goals", c),
       ("no_support", c), ("no_strengths", c), ("no_worries", c), ("no_goals", c)] := by
  simp [intentScores, INTENT_TEMPLATES, maxOrZero]

/-- On an all-equal score list, Python's `max` keeps the first entry. -/
theorem maxByValue_const (c : ℚ) :
    maxByValue
      [("greeting", c), ("question", c), ("affirmative", c), ("negative", c),
       ("support_people", c), ("strengths", c), ("worries", c), ("goals", c),
       ("no_support", c), ("no_strengths", c), ("no_worries", c), ("no_goals", c)]
      = some ("greeting", c) := by
  simp [maxByValue]

/-- `classify` on the text "hello" with no step hint and a constant score
oracle: the first template intent `greeting` wins with the constant
confidence, degraded to `unclear` exactly when the constant is below the
threshold. -/
theorem classify_const_hello (c threshold : ℚ) :
    classify true (fun _ _ => c) "hello" none threshold
      = if c < threshold then ("unclear", c) else ("greeting", c) := by
  have hps : ¬ (pyStrip "hello" = "") := by decide
  have hpre : preprocess_text "hello" = "hello" := by decide
  have h2 : ¬ ("hello" = "") := by decide
  simp only [classify, eq_self_iff_true, not_true, false_or, if_neg hps, hpre,
    if_neg h2, apply_context_boosting, intentScores_const, maxByValue_const]

/-- C5 counterexample: with the zero-shot model available and every
entailment score 1/5, the best confidence (1/5) is below the 0.3 tier
threshold and the model did not raise — yet `classify_intent` returns the
zero-shot tier's degraded result (`unclear`, 1/5, method
`roberta_zero_shot`) instead of falling through to the rule tier. -/
theorem low_confidence_not_fallthrough :
    classify_intent true (fun _ _ => (1:ℚ)/5) "hello" none
      = ⟨"unclear", 1/5, "roberta_zero_shot"⟩ ∧
    ((1:ℚ)/5 < 3/10) ∧
    (classify_intent true (fun _ _ => (1:ℚ)/5) "hello" none).method
      ≠ "rule_based" := by
  have hlt : (1:ℚ)/5 < 3/10 := by norm_num
  have hc : classify true (fun _ _ => (1:ℚ)/5) "hello" none = ("unclear", 1/5) := by
    rw [classify_const_hello, if_pos hlt]
  have hps : ¬ (pyStrip "hello" = "") := by decide
  have hmain : classify_intent true (fun _ _ => (1:ℚ)/5) "hello" none
      = ⟨"unclear", 1/5, "roberta_zero_shot"⟩ := by
    simp only [classify_intent, try_roberta_classify, if_neg hps]
    rw [hc]
    simp [intentMapping]
  refine ⟨hmain, hlt, ?_⟩
  rw [hmain]
  decide

/-- Below-threshold results of `classify` carry the label `unclear`: every
branch of `classify` that can return a confidence under the threshold
degrades the label. -/
theorem classify_low_confidence_unclear
    (available : Bool) (score : String → String → ℚ) (text : String)
    (current_step : Option String) (threshold : ℚ)
    (h : (classify available score text current_step threshold).2 < threshold) :
    (classify available score text current_step threshold).1 = "unclear" := by
  simp only [classify] at h ⊢
  by_cases h1 : ¬ (available = true) ∨ pyStrip text = ""
  · simp only [if_pos h1]
  · simp only [if_neg h1] at h ⊢
    by_cases h2 : preprocess_text text = ""
    · simp only [if_pos h2]
    · simp only [if_neg h2] at h ⊢
      rcases hm : maxByValue (apply_context_boosting
          (intentScores score (preprocess_text text)) current_step) with _ | ⟨best, conf⟩
      · simp only [hm]
      · simp only [hm] at h ⊢
        by_cases h3 : conf < threshold
        · simp only [if_pos h3]
        · simp only [if_neg h3] at h
          exact absurd h h3

/-- C5 (amended): a below-threshold zero-shot success is not a
fallthrough: with the model available and non-blank text, the zero-shot
tier does not raise, so `classify_intent` returns that tier's result
(method `roberta_zero_shot`) whatever its confidence, and when the best
boosted confidence is below the 0.3 threshold the returned result is the
degraded label `unclear` carrying that low confidence; the rule tier is
consulted only when the zero-shot tier raises (model unavailable), and no
candidate comparison across tiers exists. -/
theorem low_confidence_stays_in_zeroshot_tier
    (score : String → String → ℚ) (current_step : Option String) (text : String)
    (htext : ¬ pyStrip text = "") :
    classify_intent true score text current_step
      = ⟨intentMapping (classify true score text current_step).1,
         (classify true score text current_step).2, "roberta_zero_shot"⟩ ∧
    ((classify true score text current_step).2 < 3/10 →
      (classify_intent true score text current_step).label = "unclear") := by
  have hmain : classify_intent true score text current_step
      = ⟨intentMapping (classify true score text current_step).1,
         (classify true score text current_step).2, "roberta_zero_shot"⟩ := by
    simp only [classify_intent, try_roberta_classify, if_neg htext]
    simp
  refine ⟨hmain, fun hlt => ?_⟩
  rw [hmain]
  have := classify_low_confidence_unclear true score text current_step (3/10) hlt
  simp [this, intentMapping]

/-- C5 witness: the low-confidence zero-shot result at a concrete input
stays in the zero-shot tier with label `unclear`. -/
theorem low_confidence_stays_in_zeroshot_tier_witness :
    (classify_intent true (fun _ _ => (1:ℚ)/5) "hello world" none).method
        = "roberta_zero_shot" ∧
    (classify_intent true (fun _ _ => (1:ℚ)/5) "hello world" none).label
        = "unclear" := by
  have h := low_confidence_stays_in_zeroshot_tier (fun _ _ => (1:ℚ)/5) none
    "hello world" (by decide)
  have hlt : (classify true (fun _ _ => (1:ℚ)/5) "hello world" none).2 < 3/10 := by
    have hpre : preprocess_text "hello world" = "hello world" := by decide
    have hps : ¬ (pyStrip "hello world" = "") := by decide
    have h2 : ¬ ("hello world" = "") := by decide
    simp only [classify, eq_self_iff_true, not_true, false_or, if_neg hps, hpre,
      if_neg h2, apply_context_boosting, intentScores_const, maxByValue_const]
    split <;> norm_num
  exact ⟨by rw [h.1], h.2 hlt⟩

/-- C7 counterexample: with every entailment score equal to 1/2, the two
highest-scoring labels are within any margin of each other (an exact
tie: `greeting` and `question` both score 1/2, as do all the others),
yet `classify` returns the first maximal label `greeting` with its
confidence rather than degrading to `unclear`. -/
theorem exact_tie_returns_top_label :
    (intentScores (fun _ _ => (1:ℚ)/2) (preprocess_text "hello")).lookup "greeting"
        = some (1/2) ∧
    (intentScores (fun _ _ => (1:ℚ)/2) (preprocess_text "hello")).lookup "question"
        = some (1/2) ∧
    classify true (fun _ _ => (1:ℚ)/2) "hello" none = ("greeting", 1/2) ∧
    "greeting" ≠ "unclear" := by
  refine ⟨?_, ?_, ?_, by decide⟩
  · rw [intentScores_const]
    simp [List.lookup]
  · rw [intentScores_const]
    simp [List.lookup]
  · rw [classify_const_hello, if_neg (by norm_num : ¬ ((1:ℚ)/2 < 3/10))]

/-- C7 (amended): `classify` has no tie-break margin: whenever the first
maximal entry of the boosted score list clears the threshold, that label
and confidence are returned verbatim, however close (even equal) the
runner-up scores are.  `unclear` arises only from the confidence
threshold, empty input, or model unavailability — not from ambiguity
between close labels. -/
theorem no_margin_tie_break
    (score : String → String → ℚ) (text : String) (current_step : Option String)
    (threshold conf : ℚ) (best : String)
    (htext : ¬ pyStrip text = "")
    (hproc : ¬ preprocess_text text = "")
    (hmax : maxByValue (apply_context_boosting
        (intentScores score (preprocess_text text)) current_step) = some (best, conf))
    (hconf : threshold ≤ conf) :
    classify true score text current_step threshold = (best, conf) := by
  simp only [classify, eq_self_iff_true, not_true, false_or, if_neg htext,
    if_neg hproc, hmax, if_neg (not_lt.mpr hconf)]

/-- C7 witness: the amended rule at the exact-tie input — the tied top
label is returned because it clears the threshold. -/
theorem no_margin_tie_break_witness :
    classify true (fun _ _ => (1:ℚ)/2) "hello" none (3/10) = ("greeting", 1/2) := by
  have hpre : preprocess_text "hello" = "hello" := by decide
  refine no_margin_tie_break (fun _ _ => (1:ℚ)/2) "hello" none (3/10) (1/2) "greeting"
    (by decide) (by rw [hpre]; decide) ?_ (by norm_num)
  rw [hpre, apply_context_boosting, intentScores_const, maxByValue_const]

end AimhiChatbot
